import Mathlib

/-!
Shallow embedding of the data-preparation and filtering pipeline of
`src/dashboard.py` (trade-logistics-dashboard).

Numeric cell values are modelled as exact rationals.  The one place where
IEEE-754 behaviour is observable — division by a zero population, which in
pandas produces `inf` or `nan` — is modelled by `FloatVal`, an idealised
float value that is either a finite rational, an infinity, or `nan`.
-/

/-- Idealised floating-point value: finite rational, `+inf`, `-inf` or `nan`. -/
inductive FloatVal where
  | finite (q : ℚ)
  | inf
  | neginf
  | nan
deriving DecidableEq, Repr

/-- Pandas / IEEE-754 division on (idealised) floats: a nonzero numerator
divided by zero gives a signed infinity, `0 / 0` gives `nan`. -/
def pandasDiv (a b : ℚ) : FloatVal :=
  if b ≠ 0 then FloatVal.finite (a / b)
  else if 0 < a then FloatVal.inf
  else if a < 0 then FloatVal.neginf
  else FloatVal.nan

/-- One raw row of `data/Oc_data.xlsx`: the columns read by `dashboard.py`.
`TradeBalance` embeds the source column named `Trade Balance`. -/
structure RawRecord where
  Country : String
  Year : Int
  Export : ℚ
  Import : ℚ
  Total : ℚ
  TradeBalance : ℚ
  GDP : ℚ
  Population : ℚ
  LPI_CUSTOM : ℚ
  LPI_INFRA : ℚ
  LPI_EASE : ℚ
  LPI_QUALITY : ℚ
  LPI_TRACK : ℚ
  LPI_TIME : ℚ
deriving DecidableEq, Repr

/-- A prepared row: the raw row plus the two derived columns computed by
`load_data` (`df['Avg_LPI']` and `df['Trade_per_Capita']`). -/
structure PreparedRecord extends RawRecord where
  Avg_LPI : ℚ
  Trade_per_Capita : FloatVal
deriving DecidableEq, Repr

/-- Sum of the six LPI sub-score columns of a raw record
(`lpi_columns` of `dashboard.py` line 93). -/
def lpiSum (r : RawRecord) : ℚ :=
  r.LPI_CUSTOM + r.LPI_INFRA + r.LPI_EASE + r.LPI_QUALITY + r.LPI_TRACK + r.LPI_TIME

/-- Row-wise preparation done by `load_data` (lines 92-97):
`Avg_LPI = df[lpi_columns].mean(axis=1)` and
`Trade_per_Capita = df['Total'] / df['Population']` (unguarded division). -/
def prepareRecord (r : RawRecord) : PreparedRecord :=
  { r with
    Avg_LPI := lpiSum r / 6
    Trade_per_Capita := pandasDiv r.Total r.Population }

/-- `load_data` (lines 87-99) applied to an already-parsed table:
every row gains the two derived columns. -/
def load_data (rows : List RawRecord) : List PreparedRecord :=
  rows.map prepareRecord

/-- `filter_data` (lines 138-145): keep the rows of the selected year
(`df[df['Year'] == year].copy()`), and unless the sentinel `'All'` is a
member of `countries`, additionally keep only rows whose `Country` is in
`countries` (`filtered[filtered['Country'].isin(countries)]`). -/
def filter_data (df : List PreparedRecord) (year : Int) (countries : List String) :
    List PreparedRecord :=
  let filtered := df.filter (fun r => decide (r.Year = year))
  if "All" ∉ countries then filtered.filter (fun r => decide (r.Country ∈ countries))
  else filtered

/-- Claim C1: filter correctness.  A record is in the view returned by
`filter_data` exactly when it is a record of the table, its `Year` equals
the selected year, and either the ALL sentinel is selected (the source
decides "the selection is ALL" by membership of `'All'` in `countries`,
line 142) or its `Country` is a member of `countries`. -/
theorem filter_correctness (df : List PreparedRecord) (year : Int)
    (countries : List String) (r : PreparedRecord) :
    r ∈ filter_data df year countries ↔
      r ∈ df ∧ r.Year = year ∧ ("All" ∈ countries ∨ r.Country ∈ countries) := by
  by_cases hAll : "All" ∈ countries <;>
    (simp [filter_data, hAll, List.mem_filter]; try tauto)

/-- `years = sorted(df['Year'].unique())` (line 114): the distinct years of
the table in ascending order. -/
def years (df : List PreparedRecord) : List Int :=
  List.insertionSort (· ≤ ·) (df.map (fun r => r.Year)).dedup

/-- The `sorted(df['Country'].unique().tolist())` part of line 122: the
distinct country identifiers of the table in ascending order (the spec's
`distinct_countries`). -/
def distinct_countries (df : List PreparedRecord) : List String :=
  List.insertionSort (· ≤ ·) (df.map (fun r => r.Country)).dedup

/-- `countries = ['All'] + sorted(df['Country'].unique().tolist())`
(line 122): the sidebar options, the ALL sentinel prepended. -/
def countries_options (df : List PreparedRecord) : List String :=
  "All" :: distinct_countries df

/-- `filtered_df['Export'].sum()` (line 172). -/
def total_export (view : List PreparedRecord) : ℚ := (view.map (fun r => r.Export)).sum

/-- `filtered_df['Import'].sum()` (line 181). -/
def total_import (view : List PreparedRecord) : ℚ := (view.map (fun r => r.Import)).sum

/-- `filtered_df['Trade Balance'].sum()` (line 190). -/
def trade_balance (view : List PreparedRecord) : ℚ :=
  (view.map (fun r => r.TradeBalance)).sum

/-- `filtered_df['Total'].sum()` (line 199). -/
def total_trade (view : List PreparedRecord) : ℚ := (view.map (fun r => r.Total)).sum

/-- Sum of the `Population` column of a view (line 296). -/
def total_pop (view : List PreparedRecord) : ℚ :=
  (view.map (fun r => r.Population)).sum

/-- `avg_trade_per_capita = filtered_df['Total'].sum() / filtered_df['Population'].sum()`
(line 305): float division, unguarded against a zero population sum. -/
def avg_trade_per_capita (view : List PreparedRecord) : FloatVal :=
  pandasDiv (total_trade view) (total_pop view)

/-- What the Trade Overview tab renders (lines 165-205): the no-data warning
when the filtered view is empty, otherwise the four KPI sums. -/
inductive Tab1Output where
  | noData
  | kpis (exp imp bal tot : ℚ)
deriving DecidableEq, Repr

/-- Tab 1 consumer logic (lines 165-205): `if len(filtered_df) == 0:` show
the warning, `else:` compute the aggregate KPIs. -/
def tab1_render (view : List PreparedRecord) : Tab1Output :=
  if view.length = 0 then Tab1Output.noData
  else Tab1Output.kpis (total_export view) (total_import view)
    (trade_balance view) (total_trade view)

/-- The Fiji row of the spec's concrete scenario (§8.6). -/
def fiji : RawRecord :=
  { Country := "Fiji", Year := 2010, Export := 1000000000, Import := 2000000000,
    Total := 3000000000, TradeBalance := -1000000000, GDP := 4000000000,
    Population := 1000000, LPI_CUSTOM := 3, LPI_INFRA := 3, LPI_EASE := 3,
    LPI_QUALITY := 3, LPI_TRACK := 3, LPI_TIME := 3 }

/-- The Tonga row of the spec's concrete scenario (§8.6). -/
def tonga : RawRecord :=
  { Country := "Tonga", Year := 2010, Export := 500000000, Import := 500000000,
    Total := 1000000000, TradeBalance := 0, GDP := 500000000,
    Population := 100000, LPI_CUSTOM := 2, LPI_INFRA := 2, LPI_EASE := 2,
    LPI_QUALITY := 2, LPI_TRACK := 2, LPI_TIME := 2 }

/-- A row with a zero population and a positive total trade value. -/
def nauruZeroPop : RawRecord :=
  { Country := "Nauru", Year := 2010, Export := 1000000, Import := 2000000,
    Total := 3000000, TradeBalance := -1000000, GDP := 4000000,
    Population := 0, LPI_CUSTOM := 3, LPI_INFRA := 3, LPI_EASE := 3,
    LPI_QUALITY := 3, LPI_TRACK := 3, LPI_TIME := 3 }

/-- A row with a zero population and a zero total trade value. -/
def zeroTotalZeroPop : RawRecord :=
  { Country := "Niue", Year := 2010, Export := 0, Import := 0,
    Total := 0, TradeBalance := 0, GDP := 0,
    Population := 0, LPI_CUSTOM := 1, LPI_INFRA := 1, LPI_EASE := 1,
    LPI_QUALITY := 1, LPI_TRACK := 1, LPI_TIME := 1 }

/-- Claim C2 (refuted; the code lacks the guard the spec mandates): at a
record with population 0 the unguarded division of `load_data` line 97
produces infinity (or `nan` when the total is also 0), and the view-level
`avg_trade_per_capita` of line 305 likewise produces infinity when the
summed population is 0 — the metric is not reported as omitted/undefined. -/
theorem zero_population_unguarded :
    (prepareRecord nauruZeroPop).Trade_per_Capita = FloatVal.inf ∧
    (prepareRecord zeroTotalZeroPop).Trade_per_Capita = FloatVal.nan ∧
    avg_trade_per_capita (load_data [nauruZeroPop]) = FloatVal.inf := by
  refine ⟨?_, ?_, ?_⟩ <;>
    norm_num [prepareRecord, pandasDiv, avg_trade_per_capita, total_trade,
      total_pop, load_data, nauruZeroPop, zeroTotalZeroPop]

/-- Claim C3: for a raw record whose six LPI sub-scores each lie in
[0, 5], the derived `Avg_LPI` equals the arithmetic mean of exactly those
six sub-scores and lies in [0, 5]. -/
theorem mean_bound (r : RawRecord)
    (hc : 0 ≤ r.LPI_CUSTOM ∧ r.LPI_CUSTOM ≤ 5)
    (hi : 0 ≤ r.LPI_INFRA ∧ r.LPI_INFRA ≤ 5)
    (he : 0 ≤ r.LPI_EASE ∧ r.LPI_EASE ≤ 5)
    (hq : 0 ≤ r.LPI_QUALITY ∧ r.LPI_QUALITY ≤ 5)
    (ht : 0 ≤ r.LPI_TRACK ∧ r.LPI_TRACK ≤ 5)
    (hm : 0 ≤ r.LPI_TIME ∧ r.LPI_TIME ≤ 5) :
    (prepareRecord r).Avg_LPI =
      (r.LPI_CUSTOM + r.LPI_INFRA + r.LPI_EASE + r.LPI_QUALITY +
        r.LPI_TRACK + r.LPI_TIME) / 6 ∧
    0 ≤ (prepareRecord r).Avg_LPI ∧ (prepareRecord r).Avg_LPI ≤ 5 := by
  refine ⟨rfl, ?_, ?_⟩
  · show 0 ≤ lpiSum r / 6
    apply div_nonneg _ (by norm_num : (0:ℚ) ≤ 6)
    unfold lpiSum
    linarith [hc.1, hi.1, he.1, hq.1, ht.1, hm.1]
  · show lpiSum r / 6 ≤ 5
    rw [div_le_iff₀ (by norm_num : (0:ℚ) < 6)]
    unfold lpiSum
    linarith [hc.2, hi.2, he.2, hq.2, ht.2, hm.2]

/-- Witness for C3 at the concrete Fiji record. -/
theorem mean_bound_witness :
    (prepareRecord fiji).Avg_LPI =
      (fiji.LPI_CUSTOM + fiji.LPI_INFRA + fiji.LPI_EASE + fiji.LPI_QUALITY +
        fiji.LPI_TRACK + fiji.LPI_TIME) / 6 ∧
    0 ≤ (prepareRecord fiji).Avg_LPI ∧ (prepareRecord fiji).Avg_LPI ≤ 5 :=
  mean_bound fiji (by decide) (by decide) (by decide) (by decide) (by decide)
    (by decide)

/-- Claim C4: `filter_data` is a total function of (year, countries), and
both degenerate inputs yield the valid empty view: a year absent from the
table, and a sentinel-free countries selection with empty intersection
with the table's countries.  The Trade Overview consumer then renders the
no-data state on an empty view instead of computing aggregates over it. -/
theorem filter_totality_empty_safety (df : List PreparedRecord) (year : Int)
    (countries : List String) :
    (year ∉ df.map (fun r => r.Year) → filter_data df year countries = []) ∧
    ("All" ∉ countries → (∀ r ∈ df, r.Country ∉ countries) →
      filter_data df year countries = []) ∧
    (filter_data df year countries = [] →
      tab1_render (filter_data df year countries) = Tab1Output.noData) := by
  refine ⟨?_, ?_, ?_⟩
  · intro hy
    have hnil : df.filter (fun r => decide (r.Year = year)) = [] := by
      rw [List.filter_eq_nil_iff]
      intro r hr hcontra
      exact hy (List.mem_map.mpr ⟨r, hr, by simpa using hcontra⟩)
    by_cases hAll : "All" ∈ countries <;> simp [filter_data, hAll, hnil]
  · intro hAll hdisj
    simp only [filter_data, if_pos hAll]
    rw [List.filter_eq_nil_iff]
    intro r hr
    simp only [decide_eq_true_eq]
    exact hdisj r (List.mem_filter.mp hr).1
  · intro hempty
    rw [hempty]
    rfl

/-- Witness for C4: year 1999 is not in the two-record table and the
selection `["Samoa"]` has empty intersection with it; both filters yield
the empty view, and tab 1 reports the no-data state on it. -/
theorem filter_totality_empty_safety_witness :
    filter_data (load_data [fiji, tonga]) 1999 ["All"] = [] ∧
    filter_data (load_data [fiji, tonga]) 2010 ["Samoa"] = [] ∧
    tab1_render (filter_data (load_data [fiji, tonga]) 1999 ["All"]) =
      Tab1Output.noData := by
  have h1 := filter_totality_empty_safety (load_data [fiji, tonga]) 1999 ["All"]
  have h2 := filter_totality_empty_safety (load_data [fiji, tonga]) 2010 ["Samoa"]
  have e1 := h1.1 (by decide)
  have e2 := h2.2.1 (by decide) (by decide)
  exact ⟨e1, e2, h1.2.2 e1⟩

/-- Claim C5: `load_data` is deterministic — two invocations on the same
source yield prepared tables equal in every field, including the derived
`Avg_LPI` and `Trade_per_Capita` columns.  (The embedding is a pure
function of the parsed source, matching the `@st.cache_data` memoization
contract of line 87.) -/
theorem load_idempotent (rows₁ rows₂ : List RawRecord) (h : rows₁ = rows₂) :
    load_data rows₁ = load_data rows₂ ∧
    (load_data rows₁).map (fun r => r.Avg_LPI) =
      (load_data rows₂).map (fun r => r.Avg_LPI) ∧
    (load_data rows₁).map (fun r => r.Trade_per_Capita) =
      (load_data rows₂).map (fun r => r.Trade_per_Capita) := by
  subst h
  exact ⟨rfl, rfl, rfl⟩

/-- Witness for C5 at the concrete two-record table. -/
theorem load_idempotent_witness :
    load_data [fiji, tonga] = load_data [fiji, tonga] ∧
    (load_data [fiji, tonga]).map (fun r => r.Avg_LPI) =
      (load_data [fiji, tonga]).map (fun r => r.Avg_LPI) ∧
    (load_data [fiji, tonga]).map (fun r => r.Trade_per_Capita) =
      (load_data [fiji, tonga]).map (fun r => r.Trade_per_Capita) :=
  load_idempotent [fiji, tonga] [fiji, tonga] rfl

/-- Claim C7: the spec's concrete scenario.  Filtering the prepared
two-record table with year 2010 and the ALL selection yields exactly both
records, the sum of `Total` over the view is 4e9, Fiji's prepared
`Avg_LPI` is 3.0, and Tonga's prepared `Trade_per_Capita` is 10000. -/
theorem concrete_scenario :
    filter_data (load_data [fiji, tonga]) 2010 ["All"] = load_data [fiji, tonga] ∧
    total_trade (filter_data (load_data [fiji, tonga]) 2010 ["All"]) = 4000000000 ∧
    (prepareRecord fiji).Avg_LPI = 3 ∧
    (prepareRecord tonga).Trade_per_Capita = FloatVal.finite 10000 := by
  have hview : filter_data (load_data [fiji, tonga]) 2010 ["All"] =
      load_data [fiji, tonga] := by
    simp [filter_data, load_data, prepareRecord, fiji, tonga]
  refine ⟨hview, ?_, ?_, ?_⟩
  · rw [hview]
    norm_num [total_trade, load_data, prepareRecord, fiji, tonga]
  · norm_num [prepareRecord, lpiSum, fiji]
  · norm_num [prepareRecord, pandasDiv, tonga]

/-- Claim C8: `years` lists each distinct year of the table exactly once
in ascending order, and `distinct_countries` lists each distinct country
identifier exactly once in ascending order. -/
theorem selection_population (df : List PreparedRecord) :
    (years df).Sorted (· ≤ ·) ∧ (years df).Nodup ∧
    (∀ y, y ∈ years df ↔ y ∈ df.map (fun r => r.Year)) ∧
    (distinct_countries df).Sorted (· ≤ ·) ∧ (distinct_countries df).Nodup ∧
    (∀ c, c ∈ distinct_countries df ↔ c ∈ df.map (fun r => r.Country)) := by
  unfold years distinct_countries
  refine ⟨List.sorted_insertionSort _ _, ?_, ?_,
    List.sorted_insertionSort _ _, ?_, ?_⟩
  · exact ((List.perm_insertionSort _ _).nodup_iff).mpr (List.nodup_dedup _)
  · intro y
    rw [(List.perm_insertionSort _ _).mem_iff, List.mem_dedup]
  · exact ((List.perm_insertionSort _ _).nodup_iff).mpr (List.nodup_dedup _)
  · intro c
    rw [(List.perm_insertionSort _ _).mem_iff, List.mem_dedup]

/-- Claim C9: whenever the sentinel `'All'` appears anywhere in the
`countries` selection — including alongside specific country names — the
filter ignores the names and returns every record of the selected year,
exactly as if only the sentinel had been supplied
(`if 'All' not in countries` on line 142). -/
theorem all_override (df : List PreparedRecord) (year : Int)
    (countries : List String) (h : "All" ∈ countries) :
    filter_data df year countries = df.filter (fun r => decide (r.Year = year)) ∧
    filter_data df year countries = filter_data df year ["All"] := by
  constructor <;> simp [filter_data, h]

/-- Witness for C9: selecting `["All", "Fiji"]` on the two-record table
behaves exactly like selecting `["All"]`. -/
theorem all_override_witness :
    filter_data (load_data [fiji, tonga]) 2010 ["All", "Fiji"] =
      (load_data [fiji, tonga]).filter (fun r => decide (r.Year = 2010)) ∧
    filter_data (load_data [fiji, tonga]) 2010 ["All", "Fiji"] =
      filter_data (load_data [fiji, tonga]) 2010 ["All"] :=
  all_override (load_data [fiji, tonga]) 2010 ["All", "Fiji"] (by simp)

/-- Read a table out of a store of allocated data frames
(missing handles read as the empty table). -/
def getTable (σ : List (List PreparedRecord)) (h : Nat) : List PreparedRecord :=
  σ.getD h []

/-- Allocate a fresh data frame in the store, returning the new store and
the handle of the fresh frame. -/
def alloc (σ : List (List PreparedRecord)) (t : List PreparedRecord) :
    List (List PreparedRecord) × Nat :=
  (σ ++ [t], σ.length)

/-- Store-passing embedding of `filter_data` (lines 138-145), making the
pandas allocation behaviour explicit: boolean-mask selection
(`df[df['Year'] == year]`) allocates a fresh frame, `.copy()` allocates a
deep copy, and `isin` selection allocates again — no step writes to an
existing frame. -/
def filter_data_heap (σ : List (List PreparedRecord)) (dfh : Nat) (year : Int)
    (countries : List String) : List (List PreparedRecord) × Nat :=
  let df := getTable σ dfh
  let s1 := alloc σ (df.filter (fun r => decide (r.Year = year)))
  let s2 := alloc s1.1 (getTable s1.1 s1.2)
  if "All" ∉ countries then
    alloc s2.1 ((getTable s2.1 s2.2).filter (fun r => decide (r.Country ∈ countries)))
  else s2


theorem getTable_alloc_lt (σ : List (List PreparedRecord))
    (t : List PreparedRecord) (i : Nat) (hi : i < σ.length) :
    getTable (alloc σ t).1 i = getTable σ i :=
  List.getD_append σ [t] [] i hi

theorem getTable_alloc_self (σ : List (List PreparedRecord))
    (t : List PreparedRecord) :
    getTable (alloc σ t).1 (alloc σ t).2 = t := by
  simp [getTable, alloc]

theorem filter_data_heap_spec (σ : List (List PreparedRecord)) (dfh : Nat)
    (year : Int) (countries : List String) :
    filter_data_heap σ dfh year countries =
      (if "All" ∉ countries then
        alloc
          (alloc (alloc σ ((getTable σ dfh).filter (fun r => decide (r.Year = year)))).1
            ((getTable σ dfh).filter (fun r => decide (r.Year = year)))).1
          (((getTable σ dfh).filter (fun r => decide (r.Year = year))).filter
            (fun r => decide (r.Country ∈ countries)))
      else
        alloc (alloc σ ((getTable σ dfh).filter (fun r => decide (r.Year = year)))).1
          ((getTable σ dfh).filter (fun r => decide (r.Year = year)))) := by
  unfold filter_data_heap
  simp only [getTable_alloc_self]

/-- Claim C10: frame property of the filter.  For every store, table
handle and (year, countries) input, the call leaves every pre-existing
frame of the store — in particular the input table — unchanged (the
pandas mask selection, `.copy()` and `isin` selection each allocate a
fresh frame), and the view it returns is exactly the pure `filter_data`
of the input table. -/
theorem filter_frame (σ : List (List PreparedRecord)) (dfh : Nat) (year : Int)
    (countries : List String) (i : Nat) (hi : i < σ.length) :
    getTable (filter_data_heap σ dfh year countries).1 i = getTable σ i ∧
    getTable (filter_data_heap σ dfh year countries).1
        (filter_data_heap σ dfh year countries).2 =
      filter_data (getTable σ dfh) year countries := by
  have hspec := filter_data_heap_spec σ dfh year countries
  set t1 := (getTable σ dfh).filter (fun r => decide (r.Year = year)) with ht1
  by_cases hAll : "All" ∉ countries
  · rw [hspec, if_pos hAll]
    refine ⟨?_, ?_⟩
    · rw [getTable_alloc_lt, getTable_alloc_lt, getTable_alloc_lt] <;>
        (try simp only [alloc, List.length_append, List.length_cons,
          List.length_nil]) <;> omega
    · rw [getTable_alloc_self]
      simp [filter_data, hAll, ht1]
  · have hmem : "All" ∈ countries := not_not.mp hAll
    rw [hspec, if_neg hAll]
    refine ⟨?_, ?_⟩
    · rw [getTable_alloc_lt, getTable_alloc_lt] <;>
        (try simp only [alloc, List.length_append, List.length_cons,
          List.length_nil]) <;> omega
    · rw [getTable_alloc_self]
      simp [filter_data, hmem, ht1]

/-- Witness for C10: on a one-frame store the call leaves frame 0 intact
and returns the filtered view of it. -/
theorem filter_frame_witness :
    getTable (filter_data_heap [load_data [fiji, tonga]] 0 2010 ["Fiji"]).1 0 =
      getTable [load_data [fiji, tonga]] 0 ∧
    getTable (filter_data_heap [load_data [fiji, tonga]] 0 2010 ["Fiji"]).1
        (filter_data_heap [load_data [fiji, tonga]] 0 2010 ["Fiji"]).2 =
      filter_data (getTable [load_data [fiji, tonga]] 0) 2010 ["Fiji"] :=
  filter_frame [load_data [fiji, tonga]] 0 2010 ["Fiji"] 0 (by simp)

/-- A spreadsheet cell as parsed by `pd.read_excel`: numeric or text. -/
inductive Cell where
  | num (q : ℚ)
  | str (s : String)
deriving DecidableEq, Repr

/-- A parsed raw frame: the header row and the data rows, each row an
association of column name to cell. -/
structure RawFrame where
  header : List String
  rows : List (List (String × Cell))
deriving DecidableEq, Repr

/-- The error taxonomy observable at the load boundary of `dashboard.py`:
`read_excel` failing on an unreadable source, a `KeyError` naming the
missing column(s) raised by `df[...]` column access, and a `TypeError`
raised by arithmetic on a non-numeric cell.  All three propagate to the
`except Exception` handler of lines 102-107, which surfaces the error and
halts (`st.stop`). -/
inductive PyError where
  | readError
  | keyError (cols : List String)
  | typeError
deriving DecidableEq, Repr

/-- The six LPI sub-score columns (`lpi_columns`, line 93). -/
def lpi_columns : List String :=
  ["LPI_CUSTOM", "LPI_INFRA", "LPI_EASE", "LPI_QUALITY", "LPI_TRACK", "LPI_TIME"]

/-- The columns `load_data` reads numerically: the six LPI sub-scores,
`Total` and `Population`. -/
def requiredCols : List String := lpi_columns ++ ["Total", "Population"]

/-- Cell of a row under a column name (rows are rectangular: every header
column is present in every row; a missing name defaults to an empty text
cell, which is never numeric). -/
def getCell (row : List (String × Cell)) (c : String) : Cell :=
  (row.lookup c).getD (Cell.str "")

/-- Numeric contents of a cell, or a `TypeError` for a text cell. -/
def cellNumE (c : Cell) : Except PyError ℚ :=
  match c with
  | Cell.num q => Except.ok q
  | Cell.str _ => Except.error PyError.typeError

/-- Effectful map over a list in the `Except` monad, stopping at the
first error — the order in which a column-wise pandas operation fails. -/
def exceptMap {α β : Type} (f : α → Except PyError β) : List α → Except PyError (List β)
  | [] => Except.ok []
  | a :: as =>
    match f a with
    | Except.error e => Except.error e
    | Except.ok b =>
      match exceptMap f as with
      | Except.error e => Except.error e
      | Except.ok bs => Except.ok (b :: bs)

/-- `df[lpi_columns].mean(axis=1)` on one row: the unweighted mean of the
six LPI cells, a `TypeError` if any of them is non-numeric. -/
def rowMean (row : List (String × Cell)) : Except PyError ℚ :=
  match exceptMap (fun c => cellNumE (getCell row c)) lpi_columns with
  | Except.error e => Except.error e
  | Except.ok qs => Except.ok (qs.sum / 6)

/-- `df['Total'] / df['Population']` on one row: the idealised float
quotient, a `TypeError` if either cell is non-numeric. -/
def rowTPC (row : List (String × Cell)) : Except PyError FloatVal :=
  match getCell row "Total", getCell row "Population" with
  | Cell.num t, Cell.num p => Except.ok (pandasDiv t p)
  | _, _ => Except.error PyError.typeError

/-- A prepared row of the checked loader: the raw cells plus the two
derived columns. -/
structure CheckedRow where
  cells : List (String × Cell)
  Avg_LPI : ℚ
  Trade_per_Capita : FloatVal
deriving DecidableEq, Repr

/-- Zip the raw rows with their computed derived columns. -/
def buildRows : List (List (String × Cell)) → List ℚ → List FloatVal → List CheckedRow
  | r :: rs, m :: ms, t :: ts => ⟨r, m, t⟩ :: buildRows rs ms ts
  | _, _, _ => []

/-- `load_data` (lines 87-99) at cell level, with the failure behaviour of
its pandas operations made explicit, in the order the source performs
them: `read_excel` (fails on an unreadable source), `df[lpi_columns]`
(`KeyError` listing the missing LPI columns), the row-wise mean
(`TypeError` on a non-numeric cell), `df['Total']` and `df['Population']`
(`KeyError` naming the missing column), and the division (`TypeError` on
a non-numeric cell). -/
def load_data_checked :
    Option RawFrame → Except PyError (List CheckedRow)
  | none => Except.error PyError.readError
  | some df =>
    match lpi_columns.filter (fun c => decide (c ∉ df.header)) with
    | _ :: _ => Except.error (PyError.keyError
        (lpi_columns.filter (fun c => decide (c ∉ df.header))))
    | [] =>
      match exceptMap rowMean df.rows with
      | Except.error e => Except.error e
      | Except.ok means =>
        if "Total" ∈ df.header then
          if "Population" ∈ df.header then
            match exceptMap rowTPC df.rows with
            | Except.error e => Except.error e
            | Except.ok tpcs => Except.ok (buildRows df.rows means tpcs)
          else Except.error (PyError.keyError ["Population"])
        else Except.error (PyError.keyError ["Total"])

theorem exceptMap_ok_length {α β : Type} (f : α → Except PyError β)
    (l : List α) (bs : List β) (h : exceptMap f l = Except.ok bs) :
    bs.length = l.length := by
  induction l generalizing bs with
  | nil =>
    simp only [exceptMap] at h
    injection h with h2
    subst h2
    rfl
  | cons a as ih =>
    simp only [exceptMap] at h
    cases hfa : f a with
    | error e => rw [hfa] at h; simp at h
    | ok b =>
      rw [hfa] at h
      cases hrec : exceptMap f as with
      | error e => rw [hrec] at h; simp at h
      | ok bs2 =>
        rw [hrec] at h
        injection h with h2
        subst h2
        simp [ih bs2 hrec]

theorem exceptMap_ok_forall {α β : Type} (f : α → Except PyError β)
    (l : List α) (bs : List β) (h : exceptMap f l = Except.ok bs) :
    ∀ a ∈ l, ∃ b, f a = Except.ok b := by
  induction l generalizing bs with
  | nil => intro a ha; cases ha
  | cons a as ih =>
    simp only [exceptMap] at h
    cases hfa : f a with
    | error e => rw [hfa] at h; simp at h
    | ok b =>
      rw [hfa] at h
      cases hrec : exceptMap f as with
      | error e => rw [hrec] at h; simp at h
      | ok bs2 =>
        intro x hx
        rcases List.mem_cons.mp hx with hxa | hxs
        · exact ⟨b, hxa ▸ hfa⟩
        · exact ih bs2 hrec x hxs

theorem exceptMap_ok_of_forall {α β : Type} (f : α → Except PyError β)
    (l : List α) (h : ∀ a ∈ l, ∃ b, f a = Except.ok b) :
    ∃ bs, exceptMap f l = Except.ok bs := by
  induction l with
  | nil => exact ⟨[], rfl⟩
  | cons a as ih =>
    obtain ⟨b, hb⟩ := h a (List.mem_cons_self a as)
    obtain ⟨bs, hbs⟩ := ih (fun x hx => h x (List.mem_cons_of_mem a hx))
    exact ⟨b :: bs, by simp only [exceptMap, hb, hbs]⟩

theorem buildRows_length (rs : List (List (String × Cell))) (ms : List ℚ)
    (ts : List FloatVal) (hm : ms.length = rs.length)
    (ht : ts.length = rs.length) :
    (buildRows rs ms ts).length = rs.length := by
  induction rs generalizing ms ts with
  | nil => cases ms <;> cases ts <;> simp [buildRows]
  | cons r rs ih =>
    cases ms with
    | nil => simp at hm
    | cons m ms =>
      cases ts with
      | nil => simp at ht
      | cons t ts =>
        simp only [buildRows, List.length_cons]
        rw [ih ms ts (by simpa using hm) (by simpa using ht)]

theorem rowMean_ok_nums (row : List (String × Cell)) (m : ℚ)
    (h : rowMean row = Except.ok m) :
    ∀ c ∈ lpi_columns, ∃ q, getCell row c = Cell.num q := by
  unfold rowMean at h
  cases hmap : exceptMap (fun c => cellNumE (getCell row c)) lpi_columns with
  | error e => rw [hmap] at h; simp at h
  | ok qs =>
    intro c hc
    obtain ⟨q, hq⟩ := exceptMap_ok_forall _ _ _ hmap c hc
    cases hcell : getCell row c with
    | num q2 => exact ⟨q2, rfl⟩
    | str s => rw [hcell] at hq; simp [cellNumE] at hq

theorem rowMean_ok_of_nums (row : List (String × Cell))
    (h : ∀ c ∈ lpi_columns, ∃ q, getCell row c = Cell.num q) :
    ∃ m, rowMean row = Except.ok m := by
  obtain ⟨qs, hqs⟩ := exceptMap_ok_of_forall
    (fun c => cellNumE (getCell row c)) lpi_columns
    (by
      intro c hc
      obtain ⟨q, hq⟩ := h c hc
      exact ⟨q, by simp [hq, cellNumE]⟩)
  exact ⟨qs.sum / 6, by simp [rowMean, hqs]⟩

theorem rowTPC_ok_nums (row : List (String × Cell)) (v : FloatVal)
    (h : rowTPC row = Except.ok v) :
    (∃ q, getCell row "Total" = Cell.num q) ∧
    (∃ q, getCell row "Population" = Cell.num q) := by
  unfold rowTPC at h
  cases ht : getCell row "Total" with
  | num tq =>
    cases hp : getCell row "Population" with
    | num pq => exact ⟨⟨tq, rfl⟩, ⟨pq, rfl⟩⟩
    | str s => rw [ht, hp] at h; simp at h
  | str s =>
    cases hp : getCell row "Population" with
    | num pq => rw [ht, hp] at h; simp at h
    | str s2 => rw [ht, hp] at h; simp at h

theorem rowTPC_ok_of_nums (row : List (String × Cell))
    (h1 : ∃ q, getCell row "Total" = Cell.num q)
    (h2 : ∃ q, getCell row "Population" = Cell.num q) :
    ∃ v, rowTPC row = Except.ok v := by
  obtain ⟨tq, ht⟩ := h1
  obtain ⟨pq, hp⟩ := h2
  exact ⟨pandasDiv tq pq, by simp [rowTPC, ht, hp]⟩

theorem mem_requiredCols (c : String) :
    c ∈ requiredCols ↔ c ∈ lpi_columns ∨ c = "Total" ∨ c = "Population" := by
  simp [requiredCols]

/-- Every required numeric cell of every row that the header promises is
actually numeric (no stray text in a present required column). -/
def numericOK (df : RawFrame) : Prop :=
  ∀ row ∈ df.rows, ∀ c ∈ requiredCols, c ∈ df.header →
    ∃ q, getCell row c = Cell.num q

/-- Claim C6: load error taxonomy.  Loading an unreadable source fails
with the read error; loading a (numerically well-typed) frame missing any
required column fails with a key error naming only genuinely missing
required columns; and a successful load signals — rather than silently
drops — non-numeric values: it returns one prepared row per raw row and
guarantees every required numeric cell of every row was numeric. -/
theorem load_error_taxonomy :
    (load_data_checked none = Except.error PyError.readError) ∧
    (∀ df : RawFrame, numericOK df → (∃ c ∈ requiredCols, c ∉ df.header) →
      ∃ missing, load_data_checked (some df) =
          Except.error (PyError.keyError missing) ∧
        missing ≠ [] ∧ ∀ c ∈ missing, c ∈ requiredCols ∧ c ∉ df.header) ∧
    (∀ (df : RawFrame) (t : List CheckedRow),
      load_data_checked (some df) = Except.ok t →
      t.length = df.rows.length ∧
      ∀ row ∈ df.rows, ∀ c ∈ requiredCols, ∃ q, getCell row c = Cell.num q) := by
  refine ⟨rfl, ?_, ?_⟩
  · rintro df hnum ⟨c, hcreq, hch⟩
    simp only [load_data_checked]
    by_cases hM : lpi_columns.filter (fun x => decide (x ∉ df.header)) = []
    · have hlpiin : ∀ x ∈ lpi_columns, x ∈ df.header := by
        intro x hx
        by_contra hxn
        have hmemf : x ∈ lpi_columns.filter (fun x => decide (x ∉ df.header)) :=
          List.mem_filter.mpr ⟨hx, by simpa using hxn⟩
        rw [hM] at hmemf
        cases hmemf
      obtain ⟨ms, hms⟩ : ∃ ms, exceptMap rowMean df.rows = Except.ok ms := by
        apply exceptMap_ok_of_forall
        intro row hrow
        apply rowMean_ok_of_nums
        intro x hx
        exact hnum row hrow x ((mem_requiredCols x).mpr (Or.inl hx)) (hlpiin x hx)
      have hc2 : c = "Total" ∨ c = "Population" := by
        rcases (mem_requiredCols c).mp hcreq with h | h | h
        · exact absurd (hlpiin c h) hch
        · exact Or.inl h
        · exact Or.inr h
      by_cases hT : "Total" ∈ df.header
      · have hP : "Population" ∉ df.header := by
          rcases hc2 with rfl | rfl
          · exact absurd hT hch
          · exact hch
        refine ⟨["Population"], ?_, by simp, ?_⟩
        · rw [hM]
          simp [hms, hT, hP]
        · intro x hx
          simp only [List.mem_singleton] at hx
          subst hx
          exact ⟨(mem_requiredCols _).mpr (Or.inr (Or.inr rfl)), hP⟩
      · refine ⟨["Total"], ?_, by simp, ?_⟩
        · rw [hM]
          simp [hms, hT]
        · intro x hx
          simp only [List.mem_singleton] at hx
          subst hx
          exact ⟨(mem_requiredCols _).mpr (Or.inr (Or.inl rfl)), hT⟩
    · refine ⟨lpi_columns.filter (fun x => decide (x ∉ df.header)), ?_, hM, ?_⟩
      · cases hM2 : lpi_columns.filter (fun x => decide (x ∉ df.header)) with
        | nil => exact absurd hM2 hM
        | cons m msx => rfl
      · intro x hx
        have hx2 := List.mem_filter.mp hx
        exact ⟨(mem_requiredCols x).mpr (Or.inl hx2.1), by simpa using hx2.2⟩
  · intro df t hok
    simp only [load_data_checked] at hok
    cases hM : lpi_columns.filter (fun x => decide (x ∉ df.header)) with
    | cons m msx => rw [hM] at hok; simp at hok
    | nil =>
      rw [hM] at hok
      cases hms : exceptMap rowMean df.rows with
      | error e => simp [hms] at hok
      | ok ms =>
        simp only [hms] at hok
        by_cases hT : "Total" ∈ df.header
        · by_cases hP : "Population" ∈ df.header
          · rw [if_pos hT, if_pos hP] at hok
            cases htp : exceptMap rowTPC df.rows with
            | error e => simp [htp] at hok
            | ok tpcs =>
              simp only [htp] at hok
              injection hok with hok2
              subst hok2
              constructor
              · exact buildRows_length _ _ _ (exceptMap_ok_length _ _ _ hms)
                  (exceptMap_ok_length _ _ _ htp)
              · intro row hrow c hc
                rcases (mem_requiredCols c).mp hc with h | rfl | rfl
                · obtain ⟨m2, hm2⟩ := exceptMap_ok_forall _ _ _ hms row hrow
                  exact rowMean_ok_nums row m2 hm2 c h
                · obtain ⟨v, hv⟩ := exceptMap_ok_forall _ _ _ htp row hrow
                  exact (rowTPC_ok_nums row v hv).1
                · obtain ⟨v, hv⟩ := exceptMap_ok_forall _ _ _ htp row hrow
                  exact (rowTPC_ok_nums row v hv).2
          · rw [if_pos hT, if_neg hP] at hok
            simp at hok
        · rw [if_neg hT] at hok
          simp at hok

/-- A frame whose header lacks the required `Total` column. -/
def frameMissingTotal : RawFrame :=
  { header := ["Country", "Year", "LPI_CUSTOM", "LPI_INFRA", "LPI_EASE",
      "LPI_QUALITY", "LPI_TRACK", "LPI_TIME", "Population"],
    rows := [] }

/-- Witness for C6: the load of a frame missing the `Total` column fails
with a key error naming a genuinely missing required column. -/
theorem load_error_taxonomy_witness :
    ∃ missing, load_data_checked (some frameMissingTotal) =
        Except.error (PyError.keyError missing) ∧
      missing ≠ [] ∧
      ∀ c ∈ missing, c ∈ requiredCols ∧ c ∉ frameMissingTotal.header :=
  load_error_taxonomy.2.1 frameMissingTotal
    (by intro row hrow; cases hrow)
    ⟨"Total", by simp [requiredCols], by simp [frameMissingTotal]⟩
